import Mathlib

/-!
Shallow embedding of the filtering-and-aggregation pipeline of
`src/dashboard-1.py` (Farminfo sales-analytics dashboard).

Rows of the preprocessed order table are embedded as a structure whose
fields carry the columns the pipeline reads; column *presence* is a
property of the whole table (as in a dataframe), so the dataset carries
one boolean per optional column.  Money amounts are embedded as `ℚ`
(the source holds float64 columns; we model exact arithmetic).
Timestamps are embedded at the granularity the source uses: the
`.dt.date` accessor is the day-encoding `dtDate`, the `.dt.to_period('M')`
accessor is the month-encoding `toPeriodM`; both are order-preserving
numeric encodings of calendar dates.
-/

namespace Farn

/-- An order timestamp (`주문일` column, parsed by `pd.to_datetime`).
`hour` carries the time-of-day part that `.dt.date` discards. -/
structure Timestamp where
  year : Nat
  month : Nat
  day : Nat
  hour : Nat
deriving DecidableEq, Repr

/-- The `.dt.date` accessor: the calendar day, encoded order-preservingly
(time-of-day ignored). -/
def dtDate (t : Timestamp) : Nat :=
  (t.year * 100 + t.month) * 100 + t.day

/-- The `.dt.to_period('M')` accessor: the calendar month, encoded
order-preservingly. -/
def toPeriodM (t : Timestamp) : Nat :=
  t.year * 100 + t.month

/-- One row of the order table.  Fields for optional columns are still
total here; whether the column exists is recorded on `Dataset`. -/
structure Row where
  orderDate : Timestamp
  channel : String
  productName : String
  paidAmount : ℚ
  qty : ℚ
  uid : String
  orderNo : String
  seller : String
  margin : ℚ
  eventFlag : String
  optionCode : String
  address : String
  purpose : String
  selectedOption : String
deriving DecidableEq, Repr

/-- The loaded dataframe: its rows plus, for each optional column, whether
that column is present (`col in df.columns`). -/
structure Dataset where
  rows : List Row
  hasMargin : Bool
  hasEventFlag : Bool
  hasSeller : Bool
  hasUID : Bool
  hasOptionCode : Bool
  hasAddress : Bool
  hasPurpose : Bool
  hasSelectedOption : Bool
deriving DecidableEq, Repr

/-! ### Filter pipeline (source section 4, lines 176–212) -/

/-- Date-range filter (lines 179–184).  The widget value `date_range` is a
tuple of dates; the source only filters when `len(date_range) == 2`, and
compares `df['주문일'].dt.date` inclusively against both ends. -/
def dateFilter (dateRange : List Nat) (rows : List Row) : List Row :=
  match dateRange with
  | [s, e] =>
      rows.filter (fun r => decide (s ≤ dtDate r.orderDate) && decide (dtDate r.orderDate ≤ e))
  | _ => rows

/-- Channel filter (lines 187–188): `if selected_channels:` — an empty
(falsy) selection list disables the filter; otherwise keep the rows whose
`주문경로` is a member of the selection (`isin`). -/
def channelFilter (selected : List String) (rows : List Row) : List Row :=
  if selected.isEmpty then rows
  else rows.filter (fun r => selected.contains r.channel)

/-- Event filter (lines 191–192): keep rows with `이벤트 여부 == 'Y'` when
the toggle is on and the column exists; otherwise a no-op. -/
def eventFilter (showEventOnly : Bool) (hasCol : Bool) (rows : List Row) : List Row :=
  if showEventOnly && hasCol then rows.filter (fun r => r.eventFlag == "Y")
  else rows

/-! ### KPI metrics (source section 5, lines 217–220) -/

/-- `total_sales = df_filtered['실결제 금액'].sum()` (line 217). -/
def total_sales (rows : List Row) : ℚ :=
  (rows.map Row.paidAmount).sum

/-- `total_orders = len(df_filtered)` (line 218). -/
def total_orders (rows : List Row) : Nat :=
  rows.length

/-- `avg_order_value = total_sales / total_orders if total_orders > 0 else 0`
(line 219). -/
def avg_order_value (rows : List Row) : ℚ :=
  if 0 < total_orders rows then total_sales rows / (total_orders rows : ℚ) else 0

/-- `avg_margin = df_filtered['마진'].mean() if '마진' in df_filtered.columns
else 0` (line 220).  `Series.mean()` of an empty column is NaN, embedded
as `none`; the missing-column branch yields the number `0`. -/
def avg_margin (d : Dataset) (rows : List Row) : Option ℚ :=
  if d.hasMargin then
    (if rows.length = 0 then none
     else some ((rows.map Row.margin).sum / (rows.length : ℚ)))
  else some 0

/-! ### Keyword filter (source lines 195–212)

The source builds a boolean mask with
`mask |= df_filtered[col].astype(str).str.contains(prompt, case=False)`
over the search columns that exist.  `str.contains` with its defaults
interprets the pattern as a *regular expression* (compiled with
`re.IGNORECASE` because of `case=False`), so the keyword is a regex
pattern, not a literal substring; an invalid pattern raises `re.error`.

We embed the fragment of the regex language relevant to the keywords the
dashboard sees: literal characters, `.` (any character except newline),
the quantifiers `*`, `+`, `?` (with the lazy `?` suffix), alternation
`|`, grouping `(...)` and backslash-escaped literals.  Characters outside
this fragment are treated as literals.  Malformed patterns (unbalanced
parentheses, a quantifier with nothing to repeat, a doubled quantifier,
a dangling escape) are rejected, as `re.compile` rejects them. -/

/-- Regular-expression abstract syntax (the modelled fragment). -/
inductive RE where
  | fail : RE
  | eps : RE
  | ch : Char → RE
  | dot : RE
  | seq : RE → RE → RE
  | alt : RE → RE → RE
  | star : RE → RE
deriving DecidableEq, Repr

/-- Does the regex accept the empty string? -/
def RE.nullable : RE → Bool
  | .fail => false
  | .eps => true
  | .ch _ => false
  | .dot => false
  | .seq a b => a.nullable && b.nullable
  | .alt a b => a.nullable || b.nullable
  | .star _ => true

/-- Brzozowski derivative by one input character.  Character comparison is
case-folded on both sides, modelling `re.IGNORECASE`.  `.` matches any
character except a newline, as in Python's default (non-DOTALL) mode. -/
def RE.deriv1 : RE → Char → RE
  | .fail, _ => .fail
  | .eps, _ => .fail
  | .ch p, c => if p.toLower == c.toLower then .eps else .fail
  | .dot, c => if c == '\n' then .fail else .eps
  | .seq a b, c =>
      if a.nullable then .alt (.seq (a.deriv1 c) b) (b.deriv1 c)
      else .seq (a.deriv1 c) b
  | .alt a b, c => .alt (a.deriv1 c) (b.deriv1 c)
  | .star a, c => .seq (a.deriv1 c) (.star a)

/-- Does some prefix of `s` belong to the language of `r`? -/
def matchHere (r : RE) : List Char → Bool
  | [] => r.nullable
  | c :: cs => r.nullable || matchHere (r.deriv1 c) cs

/-- `re.search` semantics: does the pattern match starting at some
position of the string? -/
def reSearch (r : RE) : List Char → Bool
  | [] => matchHere r []
  | c :: cs => matchHere r (c :: cs) || reSearch r cs

/-- After a quantifier has been parsed: accept one optional lazy `?`,
reject a further quantifier (`re.error: multiple repeat`). -/
def rePost (r : RE) (rest : List Char) : Option (RE × List Char) :=
  match rest with
  | '*' :: _ => none
  | '+' :: _ => none
  | '?' :: rest2 =>
      match rest2 with
      | '*' :: _ => none
      | '+' :: _ => none
      | '?' :: _ => none
      | _ => some (r, rest2)
  | _ => some (r, rest)

mutual

/-- Parse an alternation (`a|b|c`). -/
def reAlt : Nat → List Char → Option (RE × List Char)
  | 0, _ => none
  | fuel + 1, s =>
    match reCat fuel s with
    | none => none
    | some (r, rest) =>
      match rest with
      | '|' :: rest2 =>
        match reAlt fuel rest2 with
        | none => none
        | some (r2, rest3) => some (.alt r r2, rest3)
      | _ => some (r, rest)

/-- Parse a concatenation of pieces; empty concatenation is `eps`. -/
def reCat : Nat → List Char → Option (RE × List Char)
  | 0, _ => none
  | fuel + 1, s =>
    match s with
    | [] => some (.eps, [])
    | c :: _ =>
      if c == '|' || c == ')' then some (.eps, s)
      else
        match rePiece fuel s with
        | none => none
        | some (r, rest) =>
          match reCat fuel rest with
          | none => none
          | some (r2, rest2) => some (.seq r r2, rest2)

/-- Parse one atom with an optional quantifier. -/
def rePiece : Nat → List Char → Option (RE × List Char)
  | 0, _ => none
  | fuel + 1, s =>
    match reAtom fuel s with
    | none => none
    | some (r, rest) =>
      match rest with
      | '*' :: rest2 => rePost (.star r) rest2
      | '+' :: rest2 => rePost (.seq r (.star r)) rest2
      | '?' :: rest2 => rePost (.alt r .eps) rest2
      | _ => some (r, rest)

/-- Parse one atom: a group, `.`, an escaped literal, or an ordinary
character.  A quantifier with nothing to repeat, a bare `)`/`|`, or a
dangling escape is a parse error. -/
def reAtom : Nat → List Char → Option (RE × List Char)
  | 0, _ => none
  | fuel + 1, s =>
    match s with
    | [] => none
    | '(' :: rest =>
      match reAlt fuel rest with
      | none => none
      | some (r, rest2) =>
        match rest2 with
        | ')' :: rest3 => some (r, rest3)
        | _ => none
    | ')' :: _ => none
    | '|' :: _ => none
    | '*' :: _ => none
    | '+' :: _ => none
    | '?' :: _ => none
    | '.' :: rest => some (.dot, rest)
    | '\\' :: c :: rest => some (.ch c, rest)
    | '\\' :: [] => none
    | c :: rest => some (.ch c, rest)

end

/-- Compile a keyword into a regex, as `re.compile(prompt)` would;
`none` models `re.error`.  (The fuel is generous: parsing consumes it
far more slowly than one unit per input character times the grammar
depth.) -/
def reParse (k : String) : Option RE :=
  match reAlt (8 * k.length + 16) k.data with
  | some (r, []) => some r
  | _ => none

/-- The six search columns of line 198:
`['상품명', '옵션코드', '주소', '주문경로', '목적', '고객선택옵션']`. -/
inductive TextCol where
  | productName | optionCode | address | channel | purpose | selectedOption
deriving DecidableEq, Repr

/-- The search-column list, in source order. -/
def searchColsL : List TextCol :=
  [.productName, .optionCode, .address, .channel, .purpose, .selectedOption]

/-- `c in df_filtered.columns` for a search column.  `상품명` and
`주문경로` are required columns of the pipeline (used unconditionally
elsewhere); the other four are optional. -/
def colPresent (d : Dataset) : TextCol → Bool
  | .productName => true
  | .optionCode => d.hasOptionCode
  | .address => d.hasAddress
  | .channel => true
  | .purpose => d.hasPurpose
  | .selectedOption => d.hasSelectedOption

/-- `valid_cols = [c for c in search_cols if c in df_filtered.columns]`
(line 199). -/
def validCols (d : Dataset) : List TextCol :=
  searchColsL.filter (colPresent d)

/-- The text a search column holds for a row (`astype(str)` of the cell;
all modelled cells are already strings). -/
def colText : TextCol → Row → String
  | .productName, r => r.productName
  | .optionCode, r => r.optionCode
  | .address, r => r.address
  | .channel, r => r.channel
  | .purpose, r => r.purpose
  | .selectedOption, r => r.selectedOption

/-- The boolean mask of lines 202–204: start from `False`, then
`mask |= df[col].str.contains(prompt, case=False)` over the valid
columns — a fold of boolean-or over the per-column regex searches. -/
def kwMask (re : RE) (d : Dataset) (r : Row) : Bool :=
  (validCols d).foldl (fun acc c => acc || reSearch re (colText c r).data) false

deriving instance DecidableEq for Except

/-- The keyword-filter step (lines 195–206): `if prompt:` — only the
*empty* string is falsy, so any non-empty keyword (whitespace included)
is searched; the pattern is compiled as a regex and an invalid pattern
raises (`Except.error`). -/
def keywordFilter (k : String) (d : Dataset) (rows : List Row) :
    Except String (List Row) :=
  if k = "" then .ok rows
  else
    match reParse k with
    | none => .error k
    | some re => .ok (rows.filter (kwMask re d))

/-- `listHasPre n h` : is `n` a leading segment of `h`? -/
def listHasPre : List Char → List Char → Bool
  | [], _ => true
  | _ :: _, [] => false
  | a :: as, b :: bs => a == b && listHasPre as bs

/-- `listHasSub n h` : does `n` occur contiguously inside `h`? -/
def listHasSub (n : List Char) (h : List Char) : Bool :=
  listHasPre n h ||
    match h with
    | [] => false
    | _ :: t => listHasSub n t

/-- Case-insensitive literal substring containment. -/
def containsCI (hay needle : String) : Bool :=
  listHasSub (needle.data.map Char.toLower) (hay.data.map Char.toLower)

/-- Follows the spec's words (§4.2 step 4), for comparison with
`keywordFilter`: "case-insensitive substring search, OR-combined across
[the] text-bearing columns … only columns that exist in the dataset
participate … If the keyword is empty or whitespace-only, this step is a
no-op." -/
def keywordFilterClaimed (k : String) (d : Dataset) (rows : List Row) : List Row :=
  if k.data.all (fun c => c.isWhitespace) then rows
  else rows.filter (fun r => (validCols d).any (fun c => containsCI (colText c r) k))

/-! ### Script control flow (lines 125–128 and 208–212)

`load_data` returns an *empty dataframe* when the file cannot be found;
the script then calls `st.stop()` before any filtering (`if
raw_df.empty: st.stop()` after an `st.error`).  Inside the keyword
branch, an empty filtered result prints `st.warning` and *also* calls
`st.stop()`, which halts the whole script — no KPI, chart or table below
it runs.  An empty view reached without a keyword is not checked and the
page renders with all aggregates computed on zero rows. -/

/-- The user-chosen filter criteria (sidebar widgets + prompt). -/
structure Criteria where
  dateRange : List Nat
  selectedChannels : List String
  showEventOnly : Bool
  prompt : String
deriving DecidableEq, Repr

/-- How one run of the script ends. -/
inductive ScriptResult where
  /-- `st.error` + `st.stop()` before any filter step (lines 85, 127–128). -/
  | loadFailed : ScriptResult
  /-- `re.error` raised by `str.contains` on an invalid pattern. -/
  | keywordError : String → ScriptResult
  /-- `st.warning` + `st.stop()` on an empty keyword result (209–210). -/
  | keywordEmptyStop : ScriptResult
  /-- The page renders; all aggregates are computed from this view. -/
  | page : List Row → ScriptResult
deriving DecidableEq, Repr

/-- Does the run reach the KPI/chart/table sections? -/
def producesPage : ScriptResult → Bool
  | .page _ => true
  | _ => false

/-- The filter chain of lines 176–206 (date → channel → event → keyword). -/
def applyFilters (d : Dataset) (c : Criteria) : Except String (List Row) :=
  keywordFilter c.prompt d
    (eventFilter c.showEventOnly d.hasEventFlag
      (channelFilter c.selectedChannels
        (dateFilter c.dateRange d.rows)))

/-- One top-to-bottom run of the script body. -/
def runScript (d : Dataset) (c : Criteria) : ScriptResult :=
  if d.rows.isEmpty then .loadFailed
  else
    match applyFilters d c with
    | .error e => .keywordError e
    | .ok view =>
        if c.prompt ≠ "" ∧ view.isEmpty then .keywordEmptyStop
        else .page view

/-! ### Groupby aggregates (lines 265–270, 329–334)

`df.groupby(key)` with its default `sort=True` produces one group per
distinct key, in ascending key order; `.agg` folds each group.  We embed
a group key list as the sorted deduplication of the mapped keys, and a
group as the sublist of rows with that key. -/

/-- The distinct keys of a groupby, in ascending order. -/
def groupKeys (key : Row → String) (rows : List Row) : List String :=
  List.insertionSort (· ≤ ·) ((rows.map key).dedup)

/-- The rows of one group. -/
def groupRows (key : Row → String) (k : String) (rows : List Row) : List Row :=
  rows.filter (fun r => key r == k)

/-- One row of the product-ranking table `prod_rank` (lines 265–268):
`groupby('상품명').agg(총주문수=('주문수량','sum'), 총매출=('실결제 금액','sum'))`. -/
structure ProdEntry where
  name : String
  totalQty : ℚ
  revenue : ℚ
deriving DecidableEq, Repr

/-- The product table before ranking (groupby + agg, ascending keys). -/
def prodGroups (rows : List Row) : List ProdEntry :=
  (groupKeys Row.productName rows).map (fun k =>
    { name := k
      totalQty := ((groupRows Row.productName k rows).map Row.qty).sum
      revenue := ((groupRows Row.productName k rows).map Row.paidAmount).sum })

/-- `prodRevDesc a b` : `a` may precede `b` in the revenue-descending
ranking (`sort_values('총매출', ascending=False)`). -/
def prodRevDesc (a b : ProdEntry) : Prop := b.revenue ≤ a.revenue

instance : DecidableRel prodRevDesc := fun a b =>
  inferInstanceAs (Decidable (b.revenue ≤ a.revenue))

instance : IsTotal ProdEntry prodRevDesc :=
  ⟨fun a b => le_total b.revenue a.revenue⟩

instance : IsTrans ProdEntry prodRevDesc :=
  ⟨fun _ _ _ h1 h2 => le_trans h2 h1⟩

/-- `prod_rank` (lines 265–268): the product table sorted descending by
revenue. -/
def prod_rank (rows : List Row) : List ProdEntry :=
  List.insertionSort prodRevDesc (prodGroups rows)

/-- Line 269: `prod_rank['매출비중'] = prod_rank['총매출'] / total_sales * 100`
— the percentage share of each ranked product, relative to the filtered
view's `total_sales` (the `{:.1f}%` formatting is presentation). -/
def prodShare (rows : List Row) : List (ProdEntry × ℚ) :=
  (prod_rank rows).map (fun e => (e, e.revenue / total_sales rows * 100))

/-- One row of the VIP table (lines 330–333):
`groupby('UID').agg(구매횟수=('주문번호','count'), 총결제금액=('실결제 금액','sum'))`.
The `count` of the order-number column is the group's row count. -/
structure VipEntry where
  uid : String
  orders : Nat
  totalPaid : ℚ
deriving DecidableEq, Repr

/-- The per-customer table before ranking (ascending `UID` keys — the
original groupby order). -/
def vipGrouped (rows : List Row) : List VipEntry :=
  (groupKeys Row.uid rows).map (fun k =>
    { uid := k
      orders := (groupRows Row.uid k rows).length
      totalPaid := ((groupRows Row.uid k rows).map Row.paidAmount).sum })

/-- `vipOrdersDesc a b` : `a` may precede `b` when sorting descending by
order count (`sort_values('구매횟수', ascending=False)`). -/
def vipOrdersDesc (a b : VipEntry) : Prop := b.orders ≤ a.orders

instance : DecidableRel vipOrdersDesc := fun a b =>
  inferInstanceAs (Decidable (b.orders ≤ a.orders))

instance : IsTotal VipEntry vipOrdersDesc :=
  ⟨fun a b => le_total b.orders a.orders⟩

instance : IsTrans VipEntry vipOrdersDesc :=
  ⟨fun _ _ _ h1 h2 => le_trans h2 h1⟩

/-- The customer table sorted descending by order count.  The source's
`sort_values` runs with its default `kind='quicksort'`, which pandas
documents as not stable: the arrangement among entries with *equal*
order counts is implementation-defined.  The insertion sort here is a
deterministic stand-in; only the properties it shares with every
comparison sort — being a permutation of the input arranged descending
by the key — reflect guarantees of the source.  Its tie order is an
artifact of the embedding and nothing may be concluded from it. -/
def vipSorted (rows : List Row) : List VipEntry :=
  List.insertionSort vipOrdersDesc (vipGrouped rows)

/-- `vip_df` (lines 330–333): `...sort_values('구매횟수',
ascending=False).head(20)`. -/
def vip_df (rows : List Row) : List VipEntry :=
  (vipSorted rows).take 20

/-- The number of distinct customers of the view. -/
def distinctCustomers (rows : List Row) : Nat :=
  ((rows.map Row.uid).dedup).length

/-! ### Seller tab and churn analysis (lines 341–414) -/

/-- The seller tab (lines 344 ff.): a warning and nothing else when the
`셀러명` column is absent, otherwise the analysis runs on the view. -/
inductive SellerTab where
  | unavailableWarning : SellerTab
  | analysis : List Row → SellerTab
deriving DecidableEq, Repr

/-- Line 344: `if '셀러명' not in df_filtered.columns: st.warning(...)`. -/
def sellerTab (d : Dataset) (view : List Row) : SellerTab :=
  if d.hasSeller then .analysis view else .unavailableWarning

/-- The month period of a row (`df_monthly['주문월'] =
df_monthly['주문일'].dt.to_period('M')`, line 352). -/
def rowPeriod (r : Row) : Nat :=
  toPeriodM r.orderDate

/-- Line 382: `periods = sorted(df_monthly['주문월'].unique())` — the
distinct order periods of the view, ascending. -/
def periodsOf (rows : List Row) : List Nat :=
  List.insertionSort (· ≤ ·) ((rows.map rowPeriod).dedup)

/-- Line 390/391: `set(df_monthly[df_monthly['주문월'] == p]['셀러명'])` —
the distinct sellers active in period `p`. -/
def activeSellers (rows : List Row) (p : Nat) : List String :=
  (((rows.filter (fun r => rowPeriod r == p)).map Row.seller)).dedup

/-- Line 393: `churned = len(prev_sellers - curr_sellers)` — the number
of sellers active in `p` but not in `c`. -/
def churnedCount (rows : List Row) (p c : Nat) : Nat :=
  ((activeSellers rows p).filter
    (fun s => !((activeSellers rows c).contains s))).length

/-- Lines 382–394: the churn series `churn_data`.  One entry per
consecutive period pair `(previous, current)`, keyed by the current
period, holding `churned * -1`; empty when the view has fewer than two
distinct periods (`if len(periods) > 1`). -/
def churn_data (rows : List Row) : List (Nat × Int) :=
  if 1 < (periodsOf rows).length then
    ((periodsOf rows).zip (periodsOf rows).tail).map
      (fun q => (q.2, -(churnedCount rows q.1 q.2 : Int)))
  else []

/-! ### Helper lemmas -/

/-- A fold of boolean-or over a list is the `any` of the list. -/
theorem foldl_or_eq_any {α : Type} (p : α → Bool) :
    ∀ (l : List α) (b : Bool), l.foldl (fun acc c => acc || p c) b = (b || l.any p)
  | [], b => by simp
  | x :: l, b => by
    simp [List.foldl_cons, foldl_or_eq_any p l (b || p x), List.any_cons, Bool.or_assoc]

/-- Unfolding `keywordFilter` on a keyword that compiles. -/
theorem keywordFilter_parse_ok {k : String} {re : RE} (d : Dataset) (rows : List Row)
    (hk : ¬ k = "") (hre : reParse k = some re) :
    keywordFilter k d rows = .ok (rows.filter (kwMask re d)) := by
  unfold keywordFilter
  rw [if_neg hk, hre]

/-- Unfolding `keywordFilter` on a keyword that fails to compile. -/
theorem keywordFilter_parse_err {k : String} (d : Dataset) (rows : List Row)
    (hk : ¬ k = "") (hre : reParse k = none) :
    keywordFilter k d rows = .error k := by
  unfold keywordFilter
  rw [if_neg hk, hre]

/-- The or-accumulated mask over the valid columns is the `any` of the
per-column searches. -/
theorem kwMask_eq_any (re : RE) (d : Dataset) (r : Row) :
    kwMask re d r = (validCols d).any (fun c => reSearch re (colText c r).data) := by
  unfold kwMask
  rw [foldl_or_eq_any]
  simp

/-- A list's mapped sum splits along any boolean predicate. -/
theorem sum_map_filter_not_add {α : Type} (p : α → Bool) (f : α → ℚ) :
    ∀ l : List α,
      ((l.filter p).map f).sum + ((l.filter (fun a => !p a)).map f).sum = (l.map f).sum
  | [] => by simp
  | x :: l => by
    cases hp : p x <;>
      simp [List.filter_cons, hp, ← sum_map_filter_not_add p f l] <;> ring

/-- Summing a group-sum over a duplicate-free key list that covers every
row gives the total sum: the groups partition the rows. -/
theorem sum_over_groups (key : Row → String) (f : Row → ℚ) :
    ∀ (keys : List String), keys.Nodup → ∀ (rows : List Row),
      (∀ r ∈ rows, key r ∈ keys) →
      (keys.map (fun k => ((rows.filter (fun r => key r == k)).map f).sum)).sum
        = (rows.map f).sum
  | [], _, rows, hcov => by
    have hrows : rows = [] :=
      List.eq_nil_iff_forall_not_mem.mpr (fun r hr => by simpa using hcov r hr)
    simp [hrows]
  | k :: ks, hnd, rows, hcov => by
    have hk : k ∉ ks := (List.nodup_cons.mp hnd).1
    have hnd2 : ks.Nodup := (List.nodup_cons.mp hnd).2
    have hstep : ∀ k2 ∈ ks,
        ((rows.filter (fun r => key r == k2)).map f).sum
          = (((rows.filter (fun r => !(key r == k))).filter
              (fun r => key r == k2)).map f).sum := by
      intro k2 hk2
      have hne : k2 ≠ k := fun h => hk (h ▸ hk2)
      have : rows.filter (fun r => key r == k2)
          = (rows.filter (fun r => !(key r == k))).filter (fun r => key r == k2) := by
        rw [List.filter_filter]
        refine (List.filter_congr ?_)
        intro r _
        cases hr2 : key r == k2
        · simp
        · have : key r = k2 := by simpa using hr2
          simp [this, hne]
      rw [this]
    have hcov2 : ∀ r ∈ rows.filter (fun r => !(key r == k)), key r ∈ ks := by
      intro r hr
      rcases List.mem_filter.mp hr with ⟨hrm, hcond⟩
      rcases List.mem_cons.mp (hcov r hrm) with h | h
      · exfalso
        simp [h] at hcond
      · exact h
    calc (((k :: ks)).map
            (fun k2 => ((rows.filter (fun r => key r == k2)).map f).sum)).sum
        = ((rows.filter (fun r => key r == k)).map f).sum
            + (ks.map (fun k2 => ((rows.filter (fun r => key r == k2)).map f).sum)).sum := by
          simp
      _ = ((rows.filter (fun r => key r == k)).map f).sum
            + (ks.map (fun k2 =>
                (((rows.filter (fun r => !(key r == k))).filter
                  (fun r => key r == k2)).map f).sum)).sum := by
          rw [List.map_congr_left hstep]
      _ = ((rows.filter (fun r => key r == k)).map f).sum
            + ((rows.filter (fun r => !(key r == k))).map f).sum := by
          rw [sum_over_groups key f ks hnd2 _ hcov2]
      _ = (rows.map f).sum := sum_map_filter_not_add _ f rows

/-- Sorted-ascending plus duplicate-free gives strictly increasing. -/
theorem pairwise_lt_of_sorted_nodup {l : List Nat}
    (h1 : l.Pairwise (· ≤ ·)) (h2 : l.Nodup) : l.Pairwise (· < ·) :=
  (h1.and h2).imp (fun h => lt_of_le_of_ne h.1 h.2)

/-- The period list of a view is duplicate-free. -/
theorem periodsOf_nodup (rows : List Row) : (periodsOf rows).Nodup :=
  ((List.perm_insertionSort _ _).nodup_iff).mpr (List.nodup_dedup _)

/-- The period list of a view is strictly increasing (chronological). -/
theorem periodsOf_strict_sorted (rows : List Row) :
    (periodsOf rows).Pairwise (· < ·) :=
  pairwise_lt_of_sorted_nodup (List.sorted_insertionSort _ _) (periodsOf_nodup rows)

/-! ### Concrete sample data for witnesses -/

/-- A sample order row for concrete evaluations. -/
def wRow (y m : Nat) (s : String) : Row :=
  { orderDate := ⟨y, m, 1, 0⟩
    channel := "web"
    productName := "P"
    paidAmount := 10
    qty := 1
    uid := "u"
    orderNo := "n"
    seller := s
    margin := 0
    eventFlag := "N"
    optionCode := ""
    address := ""
    purpose := ""
    selectedOption := "" }

/-- A sample dataset holding the given rows, every optional column absent
except `UID`. -/
def wData (rows : List Row) : Dataset :=
  { rows := rows
    hasMargin := false
    hasEventFlag := false
    hasSeller := false
    hasUID := true
    hasOptionCode := false
    hasAddress := false
    hasPurpose := false
    hasSelectedOption := false }

/-- Sample criteria: no date range, no channel selection, no event
toggle, the given keyword. -/
def wCrit (p : String) : Criteria :=
  { dateRange := [], selectedChannels := [], showEventOnly := false, prompt := p }

/-- Sample criteria selecting only the `"phone"` channel, no keyword. -/
def wCritPhone : Criteria :=
  { dateRange := [], selectedChannels := ["phone"], showEventOnly := false, prompt := "" }

/-! ### Claim theorems -/

/-- **C2**: the date-range filter is inclusive at both ends at day
granularity — a row is kept iff its order date (time-of-day ignored) is
between the bounds, so a row whose date equals either bound is kept —
and a supplied range that is not a pair of two dates makes the filter a
pass-through. -/
theorem c2_date_filter :
    (∀ s e rows (r : Row),
        r ∈ dateFilter [s, e] rows
          ↔ r ∈ rows ∧ s ≤ dtDate r.orderDate ∧ dtDate r.orderDate ≤ e)
    ∧ (∀ dr rows, dr.length ≠ 2 → dateFilter dr rows = rows)
    ∧ (∀ t h2, dtDate { t with hour := h2 } = dtDate t) := by
  refine ⟨?_, ?_, ?_⟩
  · intro s e rows r
    simp [dateFilter, List.mem_filter, and_assoc]
  · intro dr rows h
    match dr with
    | [] => rfl
    | [a] => rfl
    | [a, b] => exact absurd rfl h
    | a :: b :: c :: t => rfl
  · intro t h2
    rfl

/-- Concrete instance of C2: a row dated exactly on the start bound is
kept, and a single-point range is a pass-through. -/
theorem c2_date_filter_witness :
    wRow 2024 1 "A" ∈ dateFilter [20240101, 20240201] [wRow 2024 1 "A"]
    ∧ dateFilter [20240101] [wRow 2024 1 "A"] = [wRow 2024 1 "A"] :=
  ⟨(c2_date_filter.1 20240101 20240201 [wRow 2024 1 "A"] (wRow 2024 1 "A")).mpr
      ⟨List.mem_singleton.mpr rfl, by decide, by decide⟩,
   c2_date_filter.2.1 [20240101] [wRow 2024 1 "A"] (by decide)⟩

/-- **C5**: the average-order-value KPI is total sales over order count
when the count is positive (so multiplying back recovers total sales),
and is exactly `0` on a zero-row view — the guarded branch never
divides. -/
theorem c5_avg_order_value :
    (∀ rows : List Row, rows.length ≠ 0 →
        avg_order_value rows = total_sales rows / (rows.length : ℚ)
        ∧ avg_order_value rows * (rows.length : ℚ) = total_sales rows)
    ∧ (∀ rows : List Row, rows.length = 0 → avg_order_value rows = 0) := by
  constructor
  · intro rows h
    have hpos : 0 < total_orders rows := Nat.pos_of_ne_zero h
    have hne : ((rows.length : ℚ)) ≠ 0 := Nat.cast_ne_zero.mpr h
    have key : avg_order_value rows = total_sales rows / (rows.length : ℚ) := by
      unfold avg_order_value
      rw [if_pos hpos]
      rfl
    refine ⟨key, ?_⟩
    rw [key, div_mul_cancel₀ _ hne]
  · intro rows h
    simp [avg_order_value, total_orders, h]

/-- Concrete instance of C5 at a one-row view and the empty view. -/
theorem c5_avg_order_value_witness :
    avg_order_value [wRow 2024 1 "A"]
      = total_sales [wRow 2024 1 "A"] / (([wRow 2024 1 "A"] : List Row).length : ℚ)
    ∧ avg_order_value [] = 0 :=
  ⟨(c5_avg_order_value.1 [wRow 2024 1 "A"] (by decide)).1,
   c5_avg_order_value.2 [] rfl⟩

/-- **C8**: a non-empty channel selection keeps exactly the rows whose
channel belongs to the selection; an empty selection applies no
filtering at all. -/
theorem c8_channel_filter :
    (∀ (sel : List String) rows (r : Row), sel ≠ [] →
        (r ∈ channelFilter sel rows ↔ r ∈ rows ∧ r.channel ∈ sel))
    ∧ (∀ rows, channelFilter [] rows = rows) := by
  constructor
  · intro sel rows r hne
    have hsel : sel.isEmpty = false := by
      cases sel with
      | nil => exact absurd rfl hne
      | cons a l => rfl
    simp [channelFilter, hsel, List.mem_filter]
  · intro rows
    rfl

/-- Concrete instance of C8: membership filtering with a non-empty
selection. -/
theorem c8_channel_filter_witness :
    wRow 2024 1 "A" ∈ channelFilter ["web", "app"] [wRow 2024 1 "A"] :=
  (c8_channel_filter.1 ["web", "app"] [wRow 2024 1 "A"] (wRow 2024 1 "A")
      (by decide)).mpr ⟨List.mem_singleton.mpr rfl, by decide⟩

/-- The row of the C3 counterexample: its product name is `"AB"`. -/
def c3row : Row :=
  { wRow 2024 1 "A" with productName := "AB" }

/-- **C3 counterexample**: the code's keyword filter diverges from the
claimed case-insensitive-substring filter.  With keyword `"A+B"` the
code keeps a row whose product name is `"AB"` (the keyword is a regex:
`A+B` matches `AB`), while no text column contains `"A+B"` as a
substring; and with the whitespace-only keyword `" "` the code filters
(dropping a space-free row) instead of being a no-op. -/
theorem c3_counterexample :
    keywordFilter "A+B" (wData [c3row]) [c3row] = .ok [c3row]
    ∧ keywordFilterClaimed "A+B" (wData [c3row]) [c3row] = []
    ∧ keywordFilter " " (wData [c3row]) [c3row] = .ok []
    ∧ keywordFilterClaimed " " (wData [c3row]) [c3row] = [c3row] := by
  refine ⟨by decide, by decide, by decide, by decide⟩

/-- **C3 (amended)**: only the exactly-empty keyword is a no-op (a
whitespace-only keyword is searched like any other), and a non-empty
keyword that compiles keeps exactly the rows for which at least one of
the designated text columns existing in the dataset matches the keyword
as a case-insensitive regular expression. -/
theorem c3_keyword_filter (k : String) (d : Dataset) (rows : List Row) :
    (k = "" → keywordFilter k d rows = .ok rows)
    ∧ (∀ out (r : Row), keywordFilter k d rows = .ok out → k ≠ "" →
        (r ∈ out ↔ r ∈ rows ∧ ∃ re, reParse k = some re
            ∧ (validCols d).any (fun c => reSearch re (colText c r).data) = true)) := by
  constructor
  · intro hk
    simp [keywordFilter, hk]
  · intro out r hout hk
    cases hre : reParse k with
    | none =>
      rw [keywordFilter_parse_err d rows hk hre] at hout
      exact absurd hout (by simp)
    | some re =>
      rw [keywordFilter_parse_ok d rows hk hre] at hout
      injection hout with hout2
      subst hout2
      rw [List.mem_filter, kwMask_eq_any]
      constructor
      · rintro ⟨hm, hmask⟩
        exact ⟨hm, re, rfl, hmask⟩
      · rintro ⟨hm, re2, hre2, hany⟩
        injection hre2 with h2
        subst h2
        exact ⟨hm, hany⟩

/-- Concrete instance of the amended C3: the empty keyword is a no-op,
and keyword `"ab"` keeps the `"AB"` row case-insensitively. -/
theorem c3_keyword_filter_witness :
    keywordFilter "" (wData [c3row]) [c3row] = .ok [c3row]
    ∧ c3row ∈ [c3row].filter (kwMask (.seq (.ch 'a') (.seq (.ch 'b') .eps)) (wData [c3row])) :=
  ⟨(c3_keyword_filter "" (wData [c3row]) [c3row]).1 rfl,
   ((c3_keyword_filter "ab" (wData [c3row]) [c3row]).2
      ([c3row].filter (kwMask (.seq (.ch 'a') (.seq (.ch 'b') .eps)) (wData [c3row])))
      c3row (by decide) (by decide)).mpr
     ⟨List.mem_singleton.mpr rfl,
      .seq (.ch 'a') (.seq (.ch 'b') .eps), by decide, by decide⟩⟩

/-- **C10**: the keyword is handed to a regular-expression containment
test, not a literal substring test: every keyword that compiles filters
by regex search over the participating columns, a keyword that fails to
compile is an error (not a filtered view), and concretely the
metacharacter keyword `"."` keeps a row whose columns do not contain a
literal dot while `"("` raises. -/
theorem c10_keyword_regex :
    (∀ (k : String) (d : Dataset) rows re, k ≠ "" → reParse k = some re →
        keywordFilter k d rows
          = .ok (rows.filter (fun r =>
              (validCols d).any (fun c => reSearch re (colText c r).data))))
    ∧ (∀ (k : String) (d : Dataset) rows, k ≠ "" → reParse k = none →
        keywordFilter k d rows = .error k)
    ∧ keywordFilter "." (wData [c3row]) [c3row] = .ok [c3row]
    ∧ keywordFilterClaimed "." (wData [c3row]) [c3row] = []
    ∧ keywordFilter "(" (wData [c3row]) [c3row] = .error "(" := by
  refine ⟨?_, ?_, by decide, by decide, by decide⟩
  · intro k d rows re hk hre
    rw [keywordFilter_parse_ok d rows hk hre]
    congr 1
    apply List.filter_congr
    intro r _
    rw [kwMask_eq_any]
  · intro k d rows hk hre
    exact keywordFilter_parse_err d rows hk hre

/-- Concrete instance of C10's universal parts: keyword `"a"` filters by
regex search, and the invalid keyword `")x"` errors. -/
theorem c10_keyword_regex_witness :
    keywordFilter "a" (wData [c3row]) [c3row]
      = .ok ([c3row].filter (fun r =>
          (validCols (wData [c3row])).any
            (fun c => reSearch (.seq (.ch 'a') .eps) (colText c r).data)))
    ∧ keywordFilter ")x" (wData [c3row]) [c3row] = .error ")x" :=
  ⟨c10_keyword_regex.1 "a" (wData [c3row]) [c3row] (.seq (.ch 'a') .eps)
      (by decide) (by decide),
   c10_keyword_regex.2.1 ")x" (wData [c3row]) [c3row] (by decide) (by decide)⟩

/-- A run over non-empty data never reports the load failure. -/
theorem runScript_not_loadFailed {d : Dataset} (c : Criteria) (hd : d.rows ≠ []) :
    runScript d c ≠ .loadFailed := by
  have hie : d.rows.isEmpty = false := by
    cases hr : d.rows with
    | nil => exact absurd hr hd
    | cons a l => rfl
  unfold runScript
  rw [hie]
  simp only [Bool.false_eq_true, if_false]
  cases applyFilters d c with
  | error e => simp
  | ok view =>
    split
    · simp
    · split <;> simp

/-- With no keyword, the script always reaches the page, whatever view
the other filters leave (empty included). -/
theorem runScript_page_of_no_prompt {d : Dataset} (c : Criteria)
    (hd : d.rows ≠ []) (hp : c.prompt = "") :
    producesPage (runScript d c) = true := by
  have hie : d.rows.isEmpty = false := by
    cases hr : d.rows with
    | nil => exact absurd hr hd
    | cons a l => rfl
  have happ : applyFilters d c
      = .ok (eventFilter c.showEventOnly d.hasEventFlag
          (channelFilter c.selectedChannels (dateFilter c.dateRange d.rows))) := by
    unfold applyFilters
    rw [hp]
    rfl
  unfold runScript
  rw [hie, happ]
  simp only [Bool.false_eq_true, if_false]
  rw [if_neg (fun hc => hc.1 hp)]
  rfl

/-- **C4 counterexample**: an empty result produced by the keyword filter
does abort the sibling aggregate/chart computations — the script stops
(`st.stop()`, line 210) and no page is produced, although the dataset
loaded fine. -/
theorem c4_counterexample :
    runScript (wData [wRow 2024 1 "A"]) (wCrit "zzz") = .keywordEmptyStop
    ∧ producesPage (runScript (wData [wRow 2024 1 "A"]) (wCrit "zzz")) = false
    ∧ (wData [wRow 2024 1 "A"]).rows ≠ [] :=
  ⟨by decide, by decide, by decide⟩

/-- **C4 (amended)**: the load-failure stop and the keyword-empty-result
stop are distinguishable signals — a load failure happens exactly on an
empty loaded dataset and before any filter runs, a keyword-empty stop
only with loaded data and a non-empty keyword; an empty view reached
without a keyword does *not* halt the page, but a keyword-produced empty
view halts every downstream computation. -/
theorem c4_error_signaling (d : Dataset) (c : Criteria) :
    (d.rows = [] → runScript d c = .loadFailed)
    ∧ (runScript d c = .loadFailed → d.rows = [])
    ∧ (runScript d c = .keywordEmptyStop → d.rows ≠ [] ∧ c.prompt ≠ "")
    ∧ (d.rows ≠ [] → c.prompt = "" → producesPage (runScript d c) = true) := by
  refine ⟨?_, ?_, ?_, fun hd hp => runScript_page_of_no_prompt c hd hp⟩
  · intro h
    unfold runScript
    rw [h]
    rfl
  · intro h
    by_cases hd : d.rows = []
    · exact hd
    · exact absurd h (runScript_not_loadFailed c hd)
  · intro h
    by_cases hd : d.rows = []
    · have : runScript d c = .loadFailed := by
        unfold runScript
        rw [hd]
        rfl
      rw [h] at this
      exact absurd this (by simp)
    · refine ⟨hd, ?_⟩
      intro hp
      have := runScript_page_of_no_prompt c hd hp
      rw [h] at this
      exact absurd this (by simp [producesPage])

/-- Concrete instance of the amended C4: an empty dataset reports the
load failure; a loaded dataset with no keyword and a fruitless channel
filter still renders the page. -/
theorem c4_error_signaling_witness :
    runScript (wData []) (wCrit "") = .loadFailed
    ∧ producesPage (runScript (wData [wRow 2024 1 "A"]) wCritPhone) = true :=
  ⟨(c4_error_signaling (wData []) (wCrit "")).1 rfl,
   (c4_error_signaling (wData [wRow 2024 1 "A"]) wCritPhone).2.2.2 (by decide) rfl⟩

/-- **C6 counterexample**: with the margin column absent, the
average-margin KPI is the number `0` — a zero-valued substitute,
indistinguishable from a computed all-zero margin, and not the
"unavailable" sentinel (`none`, pandas NaN). -/
theorem c6_counterexample :
    avg_margin (wData [wRow 2024 1 "A"]) [wRow 2024 1 "A"] = some 0
    ∧ avg_margin { wData [wRow 2024 1 "A"] with hasMargin := true } [wRow 2024 1 "A"]
        = some 0
    ∧ avg_margin (wData [wRow 2024 1 "A"]) [wRow 2024 1 "A"] ≠ none := by
  refine ⟨by decide, ?_, by decide⟩
  simp [avg_margin, wData, wRow]

/-- **C6 (amended)**: the seller-analysis view is skipped entirely with
an explicit unavailable warning when the seller column is absent (and
runs when present), but the average-margin KPI substitutes the value `0`
when the margin column is absent. -/
theorem c6_optional_columns (d : Dataset) (view : List Row) :
    (d.hasSeller = false → sellerTab d view = .unavailableWarning)
    ∧ (d.hasSeller = true → sellerTab d view = .analysis view)
    ∧ (d.hasMargin = false → avg_margin d view = some 0) := by
  refine ⟨?_, ?_, ?_⟩ <;> intro h <;> simp [sellerTab, avg_margin, h]

/-- Concrete instance of the amended C6 at a dataset missing both the
seller and margin columns, and one having the seller column. -/
theorem c6_optional_columns_witness :
    sellerTab (wData [wRow 2024 1 "A"]) [wRow 2024 1 "A"] = .unavailableWarning
    ∧ sellerTab { wData [wRow 2024 1 "A"] with hasSeller := true } [wRow 2024 1 "A"]
        = .analysis [wRow 2024 1 "A"]
    ∧ avg_margin (wData [wRow 2024 1 "A"]) [wRow 2024 1 "A"] = some 0 :=
  ⟨(c6_optional_columns (wData [wRow 2024 1 "A"]) [wRow 2024 1 "A"]).1 rfl,
   (c6_optional_columns { wData [wRow 2024 1 "A"] with hasSeller := true }
      [wRow 2024 1 "A"]).2.1 rfl,
   (c6_optional_columns (wData [wRow 2024 1 "A"]) [wRow 2024 1 "A"]).2.2 rfl⟩

/-- Groupby keys are duplicate-free. -/
theorem groupKeys_nodup (key : Row → String) (rows : List Row) :
    (groupKeys key rows).Nodup :=
  ((List.perm_insertionSort _ _).nodup_iff).mpr (List.nodup_dedup _)

/-- Every row's key occurs among the groupby keys. -/
theorem mem_groupKeys {key : Row → String} {rows : List Row} {r : Row}
    (hr : r ∈ rows) : key r ∈ groupKeys key rows := by
  unfold groupKeys
  rw [(List.perm_insertionSort _ _).mem_iff, List.mem_dedup]
  exact List.mem_map_of_mem key hr

/-- **C7**: over any non-empty filtered view, the per-product revenues of
the ranking table sum to the view's total-sales KPI, the ranking is
sorted descending by revenue, and every percentage share is taken
relative to the filtered view's total sales. -/
theorem c7_prod_rank (rows : List Row) (_hne : rows ≠ []) :
    ((prod_rank rows).map ProdEntry.revenue).sum = total_sales rows
    ∧ (prod_rank rows).Sorted prodRevDesc
    ∧ ∀ pr ∈ prodShare rows, pr.2 = pr.1.revenue / total_sales rows * 100 := by
  refine ⟨?_, List.sorted_insertionSort _ _, ?_⟩
  · have hperm : List.Perm (prod_rank rows) (prodGroups rows) :=
      List.perm_insertionSort _ _
    have h1 : ((prod_rank rows).map ProdEntry.revenue).sum
        = ((prodGroups rows).map ProdEntry.revenue).sum :=
      (hperm.map _).sum_eq
    rw [h1]
    unfold prodGroups
    rw [List.map_map]
    exact sum_over_groups Row.productName Row.paidAmount
      (groupKeys Row.productName rows) (groupKeys_nodup _ _) rows
      (fun r hr => mem_groupKeys hr)
  · intro pr hpr
    rcases List.mem_map.mp hpr with ⟨e, _, rfl⟩
    rfl

/-- The view of the C7 witness: two products with revenues 10 and 5. -/
def c7rows : List Row :=
  [wRow 2024 1 "A", { wRow 2024 1 "B" with productName := "Q", paidAmount := 5 }]

/-- Concrete instance of C7 on a two-product view. -/
theorem c7_prod_rank_witness :
    ((prod_rank c7rows).map ProdEntry.revenue).sum = total_sales c7rows
    ∧ (prod_rank c7rows).Sorted prodRevDesc :=
  ⟨(c7_prod_rank c7rows (by decide)).1, (c7_prod_rank c7rows (by decide)).2.1⟩

/-- **C1**: the churn series runs over the chronologically sorted
distinct periods of the view: the series has one entry per consecutive
period pair, keyed by the current period and holding the negated size of
the set of sellers active in the previous period but not the current
one; the first period carries no entry, and fewer than two distinct
periods give an empty series. -/
theorem c1_churn_series (rows : List Row) :
    (periodsOf rows).Pairwise (· < ·)
    ∧ ((periodsOf rows).length ≤ 1 → churn_data rows = [])
    ∧ (churn_data rows).length = (periodsOf rows).length - 1
    ∧ (∀ i p c, (periodsOf rows)[i]? = some p →
        (periodsOf rows)[i + 1]? = some c →
        (churn_data rows)[i]? = some (c, -(churnedCount rows p c : Int)))
    ∧ (∀ p0 v, (periodsOf rows)[0]? = some p0 → (p0, v) ∉ churn_data rows) := by
  refine ⟨periodsOf_strict_sorted rows, ?_, ?_, ?_, ?_⟩
  · intro h
    unfold churn_data
    rw [if_neg (by omega)]
  · by_cases hlen : 1 < (periodsOf rows).length
    · unfold churn_data
      rw [if_pos hlen, List.length_map, List.length_zip, List.length_tail]
      omega
    · unfold churn_data
      rw [if_neg hlen]
      simp only [List.length_nil]
      omega
  · intro i p c hp hc
    have hcl : i + 1 < (periodsOf rows).length :=
      (List.getElem?_eq_some.mp hc).1
    have hlen : 1 < (periodsOf rows).length := by omega
    unfold churn_data
    rw [if_pos hlen, List.getElem?_map]
    have hzip : ((periodsOf rows).zip (periodsOf rows).tail)[i]? = some (p, c) := by
      refine List.getElem?_zip_eq_some.mpr ⟨hp, ?_⟩
      rw [List.getElem?_tail]
      exact hc
    rw [hzip]
    rfl
  · intro p0 v h0 hmem
    unfold churn_data at hmem
    by_cases hlen : 1 < (periodsOf rows).length
    · rw [if_pos hlen] at hmem
      rcases List.mem_map.mp hmem with ⟨q, hq, heq⟩
      have hq2 : q.2 ∈ (periodsOf rows).tail := (List.of_mem_zip hq).2
      have hqp : q.2 = p0 := congrArg Prod.fst heq
      have hpw := periodsOf_strict_sorted rows
      cases hps : periodsOf rows with
      | nil =>
        rw [hps] at h0
        simp at h0
      | cons a t =>
        rw [hps] at hpw h0 hq2
        have h0a : a = p0 := by simpa using h0
        have hq2t : q.2 ∈ t := by simpa using hq2
        rcases List.pairwise_cons.mp hpw with ⟨hall, _⟩
        have hlt : a < q.2 := hall q.2 hq2t
        rw [hqp, ← h0a] at hlt
        exact lt_irrefl _ hlt
    · rw [if_neg hlen] at hmem
      simp at hmem

/-- The view of the C1 witness: three periods with active-seller sets
`{A,B}`, `{B,C}`, `{C}` (the concrete scenario of the spec's §8). -/
def c1rows : List Row :=
  [wRow 2024 1 "A", wRow 2024 1 "B", wRow 2024 2 "B", wRow 2024 2 "C",
   wRow 2024 3 "C"]

/-- Concrete instance of C1: churn series `[-1, -1]` keyed by the second
and third periods, matching the indexed characterization. -/
theorem c1_churn_series_witness :
    churn_data c1rows = [(202402, -1), (202403, -1)]
    ∧ (churn_data c1rows)[0]?
        = some (202402, -(churnedCount c1rows 202401 202402 : Int))
    ∧ churnedCount c1rows 202401 202402 = 1 :=
  ⟨by decide,
   (c1_churn_series c1rows).2.2.2.1 0 202401 202402 (by decide) (by decide),
   by decide⟩

end Farn

namespace Farn

example : reParse "a+b" = some (.seq (.seq (.ch 'a') (.star (.ch 'a'))) (.seq (.ch 'b') .eps)) := by decide
example : (reParse "(").isNone = true := by decide
example : (reParse "a**").isNone = true := by decide
example : (reParse "a*?").isSome = true := by decide
example : ∀ re, reParse "A+B" = some re → reSearch re "xaby".data = true := by decide
example : containsCI "xABy" "a+b" = false := by decide
example : containsCI "Seoul City" "seoul" = true := by decide

end Farn
